import Mathlib

/-!
Shallow embedding of the coordination core of the Open in VLC / MPC-HC
browser extension: the preference store access patterns, the display-name
mapping, the context-menu controller (install, storage-change relabel,
click-to-launch), and the settings popup (checkbox mutual exclusion, save
action, helper status check).  JavaScript truthiness-based defaulting and
the relevant built-ins (parseInt, charAt, toUpperCase, slice,
encodeURIComponent) are modelled explicitly.
-/

namespace OpenInVLCExt

/-- Semantics of the JavaScript expression x || d for a string-valued read
that may be undefined: undefined (none) and the empty string are falsy,
so both fall back to the default d. -/
def jsOrStr : Option String → String → String
  | some s, d => if s = "" then d else s
  | none, d => d

/-- Semantics of x || d for a number-valued read: undefined (none, which
also models NaN) and 0 are falsy, so both fall back to the default d. -/
def jsOrNum : Option Int → Int → Int
  | some n, d => if n = 0 then d else n
  | none, d => d

/-- Model of the JavaScript expression s.charAt(0): a one-character string
holding the first character, or the empty string when s is empty. -/
def jsCharAt0 (s : String) : String :=
  match s.data with
  | [] => ""
  | c :: _ => String.mk [c]

/-- Model of String.prototype.toUpperCase under the ASCII case mapping. -/
def jsToUpperCase (s : String) : String :=
  String.mk (s.data.map Char.toUpper)

/-- Model of the JavaScript expression s.slice(1): drop the first character. -/
def jsSlice1 (s : String) : String :=
  String.mk (s.data.drop 1)

/-- Translation of getMediaPlayerDisplayName from the background script:
"vlc" and "mpc" map to fixed names, anything else is returned with its
first character upper-cased via charAt(0).toUpperCase() + slice(1). -/
def getMediaPlayerDisplayName (player : String) : String :=
  if player = "vlc" then "VLC"
  else if player = "mpc" then "Media Player Classic (MPC-HC)"
  else jsToUpperCase (jsCharAt0 player) ++ jsSlice1 player

/-- The player string the save-button click listener persists:
mpc checked takes precedence, then vlc, else the empty string. -/
def selectedPlayer (mpcChecked vlcChecked : Bool) : String :=
  if mpcChecked then "mpc" else if vlcChecked then "vlc" else ""

/-- Model of parseInt(s, 10): skip leading whitespace, read an optional
sign, then a maximal run of decimal digits; none models NaN (no digits). -/
def jsParseInt10 (s : String) : Option Int :=
  let cs := s.data.dropWhile (fun c => c.isWhitespace)
  let signAndRest : Int × List Char :=
    match cs with
    | '-' :: rest => (-1, rest)
    | '+' :: rest => (1, rest)
    | _ => (1, cs)
  let ds := signAndRest.2.takeWhile (fun c => c.isDigit)
  if ds.isEmpty then none
  else some (signAndRest.1 * (Int.ofNat (ds.foldl (fun acc c => acc * 10 + (c.toNat - 48)) 0)))

/-- The port the save-button click listener persists:
parseInt(value, 10) || 26270. -/
def savedPort (value : String) : Int :=
  jsOrNum (jsParseInt10 value) 26270

/-- The two player checkboxes of the settings popup. -/
structure Checkboxes where
  mpc : Bool
  vlc : Bool
  deriving DecidableEq

/-- The checkbox state after the initial settings load in popup.js: the
stored player (defaulted to "vlc") selects a branch; any unrecognized
value leaves the pre-existing document state d untouched. -/
def initCheckboxes (storedPlayer : Option String) (d : Checkboxes) : Checkboxes :=
  let p := jsOrStr storedPlayer "vlc"
  if p = "mpc" then { mpc := true, vlc := false }
  else if p = "vlc" then { mpc := false, vlc := true }
  else d

/-- A user toggle on one of the two checkboxes. -/
inductive ToggleEvent where
  | mpc
  | vlc
  deriving DecidableEq

/-- One user toggle (flipping the clicked checkbox) followed by its change
listener, which unchecks the other box when this one is now checked. -/
def applyToggle (s : Checkboxes) : ToggleEvent → Checkboxes
  | ToggleEvent.mpc =>
    let s2 : Checkboxes := { s with mpc := !s.mpc }
    if s2.mpc then { s2 with vlc := false } else s2
  | ToggleEvent.vlc =>
    let s2 : Checkboxes := { s with vlc := !s.vlc }
    if s2.vlc then { s2 with mpc := false } else s2

/-- A sequence of checkbox toggle events applied in order. -/
def runToggles (s : Checkboxes) (evs : List ToggleEvent) : Checkboxes :=
  evs.foldl applyToggle s

/-- At most one of the two player checkboxes is checked. -/
def atMostOneChecked (s : Checkboxes) : Bool :=
  !(s.mpc && s.vlc)

theorem applyToggle_atMostOne (s : Checkboxes) (e : ToggleEvent) :
    atMostOneChecked (applyToggle s e) = true := by
  rcases s with ⟨m, v⟩
  cases e <;> cases m <;> cases v <;> decide

theorem runToggles_atMostOne (s : Checkboxes) (evs : List ToggleEvent)
    (hs : atMostOneChecked s = true) :
    atMostOneChecked (runToggles s evs) = true := by
  induction evs generalizing s with
  | nil => exact hs
  | cons e rest ih => exact ih (applyToggle s e) (applyToggle_atMostOne s e)

theorem initCheckboxes_atMostOne (sp : Option String) (d : Checkboxes)
    (hd : atMostOneChecked d = true) :
    atMostOneChecked (initCheckboxes sp d) = true := by
  by_cases h1 : jsOrStr sp "vlc" = "mpc"
  · simp [initCheckboxes, atMostOneChecked, h1]
  · by_cases h2 : jsOrStr sp "vlc" = "vlc"
    · simp [initCheckboxes, atMostOneChecked, h1, h2]
    · simpa [initCheckboxes, h1, h2] using hd

/-- Claim C4: the display-name mapping sends "vlc" to "VLC", "mpc" to
"Media Player Classic (MPC-HC)", and any other non-empty string to itself
with only the first character upper-cased, the rest unchanged. -/
theorem c4_display_name_mapping :
    getMediaPlayerDisplayName "vlc" = "VLC" ∧
    getMediaPlayerDisplayName "mpc" = "Media Player Classic (MPC-HC)" ∧
    (∀ (p : String) (c : Char) (cs : List Char),
      p.data = c :: cs → p ≠ "vlc" → p ≠ "mpc" →
      (getMediaPlayerDisplayName p).data = c.toUpper :: cs) := by
  refine ⟨by decide, by decide, ?_⟩
  intro p c cs hdata hvlc hmpc
  rcases p with ⟨data⟩
  simp only [String.data] at hdata
  subst hdata
  unfold getMediaPlayerDisplayName
  rw [if_neg hvlc, if_neg hmpc]
  rfl

/-- Witness for claim C4 at concrete inputs: "zab" becomes "Zab". -/
theorem c4_display_name_mapping_witness :
    getMediaPlayerDisplayName "mpc" = "Media Player Classic (MPC-HC)" ∧
    (getMediaPlayerDisplayName "zab").data = ['Z', 'a', 'b'] := by
  refine ⟨c4_display_name_mapping.2.1, ?_⟩
  have h := c4_display_name_mapping.2.2 "zab" 'z' ['a', 'b'] rfl (by decide) (by decide)
  have hz : 'z'.toUpper = 'Z' := by decide
  rw [hz] at h
  exact h

/-- Claim C6: starting from the popup's initial settings load (with any
pre-existing checkbox state satisfying mutual exclusion), after every
sequence of toggle events at most one player checkbox is checked. -/
theorem c6_mutual_exclusion (storedPlayer : Option String) (d : Checkboxes)
    (hd : atMostOneChecked d = true) (evs : List ToggleEvent) :
    atMostOneChecked (runToggles (initCheckboxes storedPlayer d) evs) = true :=
  runToggles_atMostOne (initCheckboxes storedPlayer d) evs
    (initCheckboxes_atMostOne storedPlayer d hd)

/-- Witness for claim C6 at a concrete stored value, document state and
toggle sequence. -/
theorem c6_mutual_exclusion_witness :
    atMostOneChecked (runToggles
      (initCheckboxes (some "mpc") { mpc := false, vlc := false })
      [ToggleEvent.vlc, ToggleEvent.vlc, ToggleEvent.mpc]) = true :=
  c6_mutual_exclusion (some "mpc") { mpc := false, vlc := false } (by decide)
    [ToggleEvent.vlc, ToggleEvent.vlc, ToggleEvent.mpc]

/-- Claim C7: saving with neither checkbox checked persists the empty
string, and both readers of the player key (the jsOrStr defaulting read
and the popup initial load) resolve that persisted value to "vlc". -/
theorem c7_save_neither_resolves_default :
    selectedPlayer false false = "" ∧
    jsOrStr (some (selectedPlayer false false)) "vlc" = "vlc" ∧
    (∀ d : Checkboxes,
      initCheckboxes (some (selectedPlayer false false)) d = { mpc := false, vlc := true }) := by
  refine ⟨rfl, by decide, ?_⟩
  intro d
  rfl

/-- Witness for claim C7 at a concrete document state. -/
theorem c7_save_neither_resolves_default_witness :
    initCheckboxes (some "") { mpc := true, vlc := true } = { mpc := false, vlc := true } :=
  c7_save_neither_resolves_default.2.2 { mpc := true, vlc := true }

/-- Counterexample for claim C8 as stated: the input "0" is non-empty and
parses to the number 0, yet the persisted port is 26270, not 0. -/
theorem c8_counterexample :
    jsParseInt10 "0" = some 0 ∧ savedPort "0" = 26270 ∧ savedPort "0" ≠ 0 := by
  decide

/-- Claim C8 (amended): empty or unparsable input persists 26270; input
parsing to a nonzero integer n persists n; input parsing to 0 also
persists 26270 (the falsy-fallback case). -/
theorem c8_port_coercion (value : String) :
    (jsParseInt10 value = none → savedPort value = 26270) ∧
    (∀ n : Int, jsParseInt10 value = some n → n ≠ 0 → savedPort value = n) ∧
    (jsParseInt10 value = some 0 → savedPort value = 26270) := by
  unfold savedPort jsOrNum
  refine ⟨?_, ?_, ?_⟩
  · intro h
    rw [h]
  · intro n h hn
    rw [h]
    simp [hn]
  · intro h
    rw [h]
    simp

/-- Witness for claim C8 at concrete inputs: "8080" persists 8080 and
"abc" persists the default. -/
theorem c8_port_coercion_witness :
    savedPort "8080" = 8080 ∧ savedPort "abc" = 26270 :=
  ⟨(c8_port_coercion "8080").2.1 8080 (by decide) (by decide),
   (c8_port_coercion "abc").1 (by decide)⟩

/-- Counterexample for claim C9 as stated: the input "99999" persists the
port 99999, which lies outside the range 1 to 65535. -/
theorem c9_counterexample :
    savedPort "99999" = 99999 ∧ ¬(savedPort "99999" ≤ 65535) := by
  decide

/-- Claim C9 (amended): every persisted port is either the default 26270
or the nonzero integer parsed from the field; no restriction to the range
1 to 65535 is enforced by the save action. -/
theorem c9_no_range_restriction (value : String) :
    savedPort value = 26270 ∨
    (jsParseInt10 value = some (savedPort value) ∧ savedPort value ≠ 0) := by
  unfold savedPort jsOrNum
  cases h : jsParseInt10 value with
  | none => exact Or.inl rfl
  | some n =>
    by_cases hz : n = 0
    · subst hz
      simp
    · right
      simp [hz]

/-- Witness for claim C9 at a concrete out-of-range input. -/
theorem c9_no_range_restriction_witness :
    savedPort "70000" = 26270 ∨
    (jsParseInt10 "70000" = some (savedPort "70000") ∧ savedPort "70000" ≠ 0) :=
  c9_no_range_restriction "70000"

/-- Claim C10: whenever the port field parses to the integer 0, the save
action persists 26270, because the || fallback triggers on the falsy
parse result 0, not only on NaN. -/
theorem c10_zero_port_falls_back (value : String)
    (h : jsParseInt10 value = some 0) :
    savedPort value = 26270 := by
  unfold savedPort jsOrNum
  rw [h]
  simp

/-- Witness for claim C10 at the concrete input "0". -/
theorem c10_zero_port_falls_back_witness :
    jsParseInt10 "0" = some 0 ∧ savedPort "0" = 26270 :=
  ⟨by decide, c10_zero_port_falls_back "0" (by decide)⟩

/-- One entry of the storage.onChanged changes object: the old and new
values of a key (either may be undefined). -/
structure StorageChange where
  oldValue : Option String
  newValue : Option String

/-- The changes object delivered to the storage.onChanged listener,
restricted to the two keys this extension uses: a key is present exactly
when it was changed. -/
structure PlayerChanges where
  defaultMediaPlayer : Option StorageChange
  serverPort : Option StorageChange

/-- An action on the context-menu item: creating an item or updating its
title in place. -/
inductive MenuAction where
  | create (id : String) (title : String)
  | update (id : String) (title : String)
  deriving DecidableEq

/-- Translation of the storage.onChanged listener in the background
script: when the area is "local" and the defaultMediaPlayer key changed,
update the title of the existing menu item in place. -/
def onStorageChanged (changes : PlayerChanges) (area : String) : List MenuAction :=
  if area = "local" then
    match changes.defaultMediaPlayer with
    | some ch =>
      [MenuAction.update "viewInLocalMediaPlayer"
        ("Open in " ++ getMediaPlayerDisplayName (jsOrStr ch.newValue "vlc"))]
    | none => []
  else []

/-- Claim C5: the storage.onChanged listener acts exactly when the area
is "local" and the player key changed; the single action is an in-place
title update of the existing item (never a create); the title is
"Open in " plus the display name of the new value with the "vlc"
fallback; a change not touching the player key produces no action. -/
theorem c5_relabel_on_player_change (changes : PlayerChanges) (area : String) :
    (onStorageChanged changes area ≠ [] ↔
      (area = "local" ∧ changes.defaultMediaPlayer ≠ none)) ∧
    (∀ ch : StorageChange, changes.defaultMediaPlayer = some ch → area = "local" →
      onStorageChanged changes area =
        [MenuAction.update "viewInLocalMediaPlayer"
          ("Open in " ++ getMediaPlayerDisplayName (jsOrStr ch.newValue "vlc"))]) ∧
    (∀ i t : String, MenuAction.create i t ∉ onStorageChanged changes area) ∧
    (changes.defaultMediaPlayer = none → onStorageChanged changes area = []) := by
  unfold onStorageChanged
  by_cases ha : area = "local"
  · rw [if_pos ha]
    cases hch : changes.defaultMediaPlayer with
    | none =>
      refine ⟨by simp [ha, hch], ?_, by simp, fun _ => rfl⟩
      intro ch hc
      exact absurd hc (by simp)
    | some ch0 =>
      refine ⟨by simp [ha, hch], ?_, by simp, ?_⟩
      · intro ch hc _
        cases hc
        rfl
      · intro hc
        exact absurd hc (by simp)
  · rw [if_neg ha]
    exact ⟨by simp [ha], fun ch hc hl => absurd hl ha, by simp, fun _ => rfl⟩

/-- Witness for claim C5 at a concrete change event: switching the player
key to "mpc" in the local area relabels the menu item. -/
theorem c5_relabel_on_player_change_witness :
    onStorageChanged
      { defaultMediaPlayer := some { oldValue := some "vlc", newValue := some "mpc" },
        serverPort := none } "local" =
      [MenuAction.update "viewInLocalMediaPlayer" "Open in Media Player Classic (MPC-HC)"] := by
  have h := (c5_relabel_on_player_change
    { defaultMediaPlayer := some { oldValue := some "vlc", newValue := some "mpc" },
      serverPort := none } "local").2.1
    { oldValue := some "vlc", newValue := some "mpc" } rfl rfl
  exact h.trans (by decide)

/-- Uppercase hexadecimal digit of a value below 16. -/
def hexDigitChar (n : Nat) : Char :=
  if n < 10 then Char.ofNat (48 + n) else Char.ofNat (55 + n)

/-- The UTF-8 bytes of a character. -/
def utf8BytesOfChar (c : Char) : List Nat :=
  let n := c.toNat
  if n < 128 then [n]
  else if n < 2048 then [192 + n / 64, 128 + n % 64]
  else if n < 65536 then [224 + n / 4096, 128 + (n / 64) % 64, 128 + n % 64]
  else [240 + n / 262144, 128 + (n / 4096) % 64, 128 + (n / 64) % 64, 128 + n % 64]

/-- The characters encodeURIComponent leaves unescaped: alphanumerics and
the marks - _ . ! ~ * ' ( ). -/
def isURIUnescaped (c : Char) : Bool :=
  c.isAlphanum || c = '-' || c = '_' || c = '.' || c = '!' ||
    c = '~' || c = '*' || c = '\'' || c = '(' || c = ')'

/-- Model of the JavaScript built-in encodeURIComponent: unescaped
characters pass through, every other character is replaced by the
percent-encoding of each of its UTF-8 bytes in uppercase hexadecimal. -/
def encodeURIComponent (s : String) : String :=
  String.mk (s.data.foldr
    (fun c acc =>
      (if isURIUnescaped c then [c]
       else (utf8BytesOfChar c).foldr
         (fun b bacc => '%' :: hexDigitChar (b / 16) :: hexDigitChar (b % 16) :: bacc) []) ++ acc)
    [])

/-- JS ToString of a possibly-undefined string value, as applied by
template-literal interpolation and encodeURIComponent. -/
def jsStringOfOpt : Option String → String
  | some s => s
  | none => "undefined"

/-- Semantics of a || b on two possibly-undefined string values. -/
def jsOrOpt : Option String → Option String → Option String
  | some s, b => if s = "" then b else some s
  | none, b => b

/-- The fields of the contextMenus.onClicked info object this extension
reads. -/
structure OnClickData where
  menuItemId : String
  srcUrl : Option String
  linkUrl : Option String

/-- The stored preference record as read back from storage.local: either
key may be absent. -/
structure StoredPrefs where
  defaultMediaPlayer : Option String
  serverPort : Option Int

/-- An outbound fetch call: its URL and its cache mode. -/
structure FetchRequest where
  url : String
  cache : String
  deriving DecidableEq

/-- The launch request URL built by the onClicked listener. -/
def launchUrl (port : Int) (player : String) (mediaURL : Option String) : String :=
  "http://localhost:" ++ toString port ++ "/launch?player=" ++ player ++
    "&media_url=" ++ encodeURIComponent (jsStringOfOpt mediaURL)

/-- Translation of the contextMenus.onClicked listener: the requests it
issues given the click info and the storage read at click time. -/
def onMenuClicked (info : OnClickData) (prefs : StoredPrefs) : List FetchRequest :=
  if info.menuItemId = "viewInLocalMediaPlayer" then
    let mediaURL := jsOrOpt info.srcUrl info.linkUrl
    let defaultMediaPlayer := jsOrStr prefs.defaultMediaPlayer "vlc"
    let port := jsOrNum prefs.serverPort 26270
    [{ url := launchUrl port defaultMediaPlayer mediaURL, cache := "no-store" }]
  else []

/-- Claim C2: a click on the menu item with id "viewInLocalMediaPlayer"
issues exactly one request, with caching disabled, to the launch URL
built from the storage values read at click time (defaults "vlc" and
26270) and the percent-encoded media URL; the media URL is the srcUrl
when present (non-empty), else the linkUrl. -/
theorem c2_launch_request (info : OnClickData) (prefs : StoredPrefs)
    (hid : info.menuItemId = "viewInLocalMediaPlayer") :
    onMenuClicked info prefs =
      [{ url := "http://localhost:" ++ toString (jsOrNum prefs.serverPort 26270) ++
           "/launch?player=" ++ jsOrStr prefs.defaultMediaPlayer "vlc" ++
           "&media_url=" ++
           encodeURIComponent (jsStringOfOpt (jsOrOpt info.srcUrl info.linkUrl)),
         cache := "no-store" }] ∧
    (∀ s : String, info.srcUrl = some s → s ≠ "" →
      jsOrOpt info.srcUrl info.linkUrl = some s) ∧
    (info.srcUrl = none → jsOrOpt info.srcUrl info.linkUrl = info.linkUrl) := by
  refine ⟨?_, ?_, ?_⟩
  · unfold onMenuClicked
    rw [if_pos hid]
    rfl
  · intro s hs hne
    rw [hs]
    simp [jsOrOpt, hne]
  · intro hs
    rw [hs]
    rfl

/-- Witness for claim C2 at a concrete click (link to an mkv file, stored
player "mpc", no stored port). -/
theorem c2_launch_request_witness :
    onMenuClicked
      { menuItemId := "viewInLocalMediaPlayer", srcUrl := none,
        linkUrl := some "http://example.com/a.mkv" }
      { defaultMediaPlayer := some "mpc", serverPort := none } =
      [{ url := "http://localhost:26270/launch?player=mpc&media_url=http%3A%2F%2Fexample.com%2Fa.mkv",
         cache := "no-store" }] := by
  have h := (c2_launch_request
    { menuItemId := "viewInLocalMediaPlayer", srcUrl := none,
      linkUrl := some "http://example.com/a.mkv" }
    { defaultMediaPlayer := some "mpc", serverPort := none } rfl).1
  exact h.trans (by decide)

/-- A JavaScript value appearing in the catch handler's ternary
condition: a boolean (from the === comparison) or a string literal. -/
inductive JSVal where
  | bool (b : Bool)
  | str (s : String)

/-- JavaScript truthiness for the two value shapes above: a boolean is
its own truth value, a string is truthy when non-empty. -/
def jsTruthy : JSVal → Bool
  | JSVal.bool b => b
  | JSVal.str s => !(s == "")

/-- Semantics of a || b on JavaScript values: a when truthy, else b. -/
def jsOrVal (a b : JSVal) : JSVal :=
  if jsTruthy a then a else b

/-- The fixed user-facing text for an unreachable helper app. -/
def helperNotConnectedMessage : String :=
  "Windows helper app is not connected. Please open settings page of this extension to check/configure helper app connection."

/-- Translation of the errorMessage assignment in the onClicked catch
handler.  In the source the ternary condition is the expression
(error.message === "Failed to fetch" || "NetworkError when attempting to
fetch resource."), in which the || binds tighter than ? :, so the second
disjunct is the bare string literal. -/
def launchErrorMessage (errMessage : String) : String :=
  if jsTruthy (jsOrVal (JSVal.bool (errMessage == "Failed to fetch"))
      (JSVal.str "NetworkError when attempting to fetch resource.")) then
    helperNotConnectedMessage
  else errMessage

/-- Model of Response.ok: the status code is in the range 200 to 299. -/
def responseOk (status : Nat) : Bool :=
  200 ≤ status && status ≤ 299

/-- A system notification created via the notifications API. -/
structure SystemNotification where
  title : String
  message : String
  deriving DecidableEq

/-- The outcome of the launch fetch call: an HTTP response with a status
code and a text body, or a transport-level rejection whose error carries
the given message. -/
inductive LaunchOutcome where
  | response (status : Nat) (body : String)
  | networkFailure (errMessage : String)

/-- Translation of the then/catch chain on the launch fetch: a 2xx
response logs only (the success notification is commented out in the
source); a non-2xx response throws an Error with message "Server error: "
plus the status, which the catch handler turns into a notification; a
network failure reaches the catch handler directly. -/
def launchFetchHandler : LaunchOutcome → List SystemNotification
  | LaunchOutcome.response status _ =>
    if responseOk status then []
    else [{ title := "Media player launch failed!",
            message := launchErrorMessage ("Server error: " ++ toString status) }]
  | LaunchOutcome.networkFailure errMessage =>
    [{ title := "Media player launch failed!",
       message := launchErrorMessage errMessage }]

/-- Claim C1, behavior at the failing input: a 404 response produces
exactly one notification with the title "Media player launch failed!",
but its message is the fixed helper-not-connected text rather than
"Server error: 404", because the ternary condition in the catch handler
is always truthy; the same fixed message appears for an arbitrary thrown
error as well. -/
theorem c1_notification_message_constant :
    launchFetchHandler (LaunchOutcome.response 404 "") =
      [{ title := "Media player launch failed!", message := helperNotConnectedMessage }] ∧
    helperNotConnectedMessage ≠ "Server error: 404" ∧
    launchFetchHandler (LaunchOutcome.networkFailure "some other error") =
      [{ title := "Media player launch failed!", message := helperNotConnectedMessage }] := by
  refine ⟨by decide, by decide, by decide⟩

/-- A mutation of the popup's alert container: clearing it, adding or
removing the in-progress placeholder, or adding a result alert of a
given level (showAlert first clears, then adds). -/
inductive UIEvent where
  | clearAlerts
  | addPlaceholder
  | removePlaceholder
  | addAlert (message : String) (alertType : String)
  deriving DecidableEq

/-- The JSON body of the status response as seen by the handler: it
parses with a version field, parses without one (data.version is then
undefined), or fails to parse (response.json() rejects). -/
inductive StatusBody where
  | withVersion (version : String)
  | withoutVersion
  | invalidJson
  deriving DecidableEq

/-- The outcome of the status fetch call. -/
inductive StatusOutcome where
  | response (status : Nat) (body : StatusBody)
  | networkFailure
  deriving DecidableEq

/-- The danger alert content of the status check's catch handler, from
the template literal in the source. -/
def helperNotRunningMessage : String :=
  "<strong>Windows helper app is not running.</strong>\n             <div style=\"margin:8px 0px\">For this extension to work, you will need to install and run a small native windows application which is used to launch VLC / MPC-HC.</div>\n             <div style=\"margin:8px 0px\">Please <a href=\"https://github.com/jaswinder-singh/Open-in-VLC-MPCHC-Browser-Extension/releases/latest\" target=\"_Blank\" title=\"Click here to download helper app\">download and run windows helper app</a>.</div>\n             <div>If helper app is already running on your computer, make sure port number entered below matches the port used in helper app settings.</div>"

/-- The success alert content of the status check, interpolating
data.version. -/
def statusSuccessMessage (versionString : String) : String :=
  "<strong>Windows helper app v" ++ versionString ++ " is connected.</strong>"

/-- Translation of checkServerStatus in popup.js: clear the alerts, add
the in-progress placeholder, read the port (default 26270), issue the
status fetch, then on a 2xx response with parsable JSON remove the
placeholder and show the success alert (an absent version field
interpolates as "undefined"); on a non-2xx response, an unparsable body
or a network failure, remove the placeholder and show the danger alert. -/
def checkServerStatus (storedPort : Option Int) (outcome : StatusOutcome) :
    FetchRequest × List UIEvent :=
  let port := jsOrNum storedPort 26270
  let req : FetchRequest :=
    { url := "http://localhost:" ++ toString port ++ "/status", cache := "no-store" }
  let results : List UIEvent :=
    match outcome with
    | StatusOutcome.response status body =>
      if responseOk status then
        match body with
        | StatusBody.withVersion v =>
          [UIEvent.removePlaceholder, UIEvent.clearAlerts,
           UIEvent.addAlert (statusSuccessMessage v) "success"]
        | StatusBody.withoutVersion =>
          [UIEvent.removePlaceholder, UIEvent.clearAlerts,
           UIEvent.addAlert (statusSuccessMessage "undefined") "success"]
        | StatusBody.invalidJson =>
          [UIEvent.removePlaceholder, UIEvent.clearAlerts,
           UIEvent.addAlert helperNotRunningMessage "danger"]
      else
        [UIEvent.removePlaceholder, UIEvent.clearAlerts,
         UIEvent.addAlert helperNotRunningMessage "danger"]
    | StatusOutcome.networkFailure =>
      [UIEvent.removePlaceholder, UIEvent.clearAlerts,
       UIEvent.addAlert helperNotRunningMessage "danger"]
  (req, UIEvent.clearAlerts :: UIEvent.addPlaceholder :: results)

/-- Claim C3: every status check removes the placeholder before the
result alert is added; a 2xx response with a version field yields a
success alert whose message contains exactly that version string; a
non-2xx response or a network error yields a danger alert carrying the
fixed helper-download guidance text. -/
theorem c3_status_check (storedPort : Option Int) (outcome : StatusOutcome) :
    ∃ msg t : String,
      (checkServerStatus storedPort outcome).2 =
        [UIEvent.clearAlerts, UIEvent.addPlaceholder, UIEvent.removePlaceholder,
         UIEvent.clearAlerts, UIEvent.addAlert msg t] ∧
      (∀ (status : Nat) (v : String),
        outcome = StatusOutcome.response status (StatusBody.withVersion v) →
        responseOk status = true →
        t = "success" ∧ msg = "<strong>Windows helper app v" ++ v ++ " is connected.</strong>") ∧
      (∀ (status : Nat) (body : StatusBody),
        outcome = StatusOutcome.response status body →
        responseOk status = false →
        t = "danger" ∧ msg = helperNotRunningMessage) ∧
      (outcome = StatusOutcome.networkFailure →
        t = "danger" ∧ msg = helperNotRunningMessage) := by
  cases outcome with
  | response status body =>
    by_cases hok : responseOk status = true
    · cases body with
      | withVersion v =>
        refine ⟨statusSuccessMessage v, "success", ?_, ?_, ?_, ?_⟩
        · simp [checkServerStatus, hok]
        · intro st w hw _
          cases hw
          exact ⟨rfl, rfl⟩
        · intro st b hb hfalse
          cases hb
          rw [hok] at hfalse
          exact absurd hfalse (by simp)
        · intro hn
          exact absurd hn (by simp)
      | withoutVersion =>
        refine ⟨statusSuccessMessage "undefined", "success", ?_, ?_, ?_, ?_⟩
        · simp [checkServerStatus, hok]
        · intro st w hw _
          exact absurd hw (by simp)
        · intro st b hb hfalse
          cases hb
          rw [hok] at hfalse
          exact absurd hfalse (by simp)
        · intro hn
          exact absurd hn (by simp)
      | invalidJson =>
        refine ⟨helperNotRunningMessage, "danger", ?_, ?_, ?_, ?_⟩
        · simp [checkServerStatus, hok]
        · intro st w hw _
          exact absurd hw (by simp)
        · intro st b hb hfalse
          cases hb
          rw [hok] at hfalse
          exact absurd hfalse (by simp)
        · intro hn
          exact absurd hn (by simp)
    · rw [Bool.not_eq_true] at hok
      refine ⟨helperNotRunningMessage, "danger", ?_, ?_, ?_, ?_⟩
      · simp [checkServerStatus, hok]
      · intro st w hw htrue
        cases hw
        rw [hok] at htrue
        exact absurd htrue (by simp)
      · intro st b hb _
        exact ⟨rfl, rfl⟩
      · intro hn
        exact absurd hn (by simp)
  | networkFailure =>
    refine ⟨helperNotRunningMessage, "danger", ?_, ?_, ?_, ?_⟩
    · simp [checkServerStatus]
    · intro st w hw _
      exact absurd hw (by simp)
    · intro st b hb _
      exact absurd hb (by simp)
    · intro _
      exact ⟨rfl, rfl⟩

/-- Witness for claim C3 at the concrete scenario of the specification:
a 200 response with version "1.2.0". -/
theorem c3_status_check_witness :
    (checkServerStatus none
      (StatusOutcome.response 200 (StatusBody.withVersion "1.2.0"))).2 =
      [UIEvent.clearAlerts, UIEvent.addPlaceholder, UIEvent.removePlaceholder,
       UIEvent.clearAlerts,
       UIEvent.addAlert "<strong>Windows helper app v1.2.0 is connected.</strong>" "success"] := by
  obtain ⟨msg, t, hev, hsucc, h2, h3⟩ := c3_status_check none
    (StatusOutcome.response 200 (StatusBody.withVersion "1.2.0"))
  obtain ⟨ht, hmsg⟩ := hsucc 200 "1.2.0" rfl (by decide)
  rw [ht, hmsg] at hev
  exact hev.trans (by decide)

end OpenInVLCExt
